import Mathlib

/-!
Verification of the jobly repository's dynamic SQL-construction layer and
authorization layer, shallowly embedded from the JavaScript source.

Sources embedded:
* `helpers/sql.js` (`sqlForPartialUpdate`) — partial-update builder;
* `routes/users.js` — the per-route authorization guards;
* `routes/companies.js` (`GET /`) — the min/max filter validation;
* `models/user.js` — `User.get`, `User.update`, `User.applyForJob`,
  `User.getUserApplications`, `User.remove`.
-/

/-- Error taxonomy of `expressError.js` as used by the embedded files:
`BadRequestError`, `UnauthorizedError`, `NotFoundError`. -/
inductive ExpressErr where
  | badRequest (msg : String)
  | unauthorized (msg : String)
  | notFound (msg : String)
deriving Repr, DecidableEq

/-- The column resolution expression `jsToSql[colName] || colName` from
`sqlForPartialUpdate` (helpers/sql.js line 38): JavaScript `||` falls back to
`colName` when the looked-up value is falsy, i.e. `undefined` (no mapping
entry, modeled as `none`) or the empty string. -/
def resolveCol (jsToSql : List (String × String)) (colName : String) : String :=
  match jsToSql.lookup colName with
  | some s => if s = "" then colName else s
  | none => colName

/-- The `cols` array of `sqlForPartialUpdate` (helpers/sql.js lines 36-39):
`keys.map((colName, idx) => ‹"resolved"=$idx+1›)`, with the JavaScript map
index threaded explicitly (the call site starts it at 0). -/
def updateCols (jsToSql : List (String × String)) : List String → Nat → List String
  | [], _ => []
  | colName :: rest, idx =>
      ("\"" ++ resolveCol jsToSql colName ++ "\"=$" ++ toString (idx + 1))
        :: updateCols jsToSql rest (idx + 1)

/-- The function `sqlForPartialUpdate(dataToUpdate, jsToSql)` (helpers/sql.js lines 30-45).
The JavaScript object `dataToUpdate` is modeled as an association list in its
iteration order (`Object.keys` / `Object.values` enumerate it in the same
order); the result object `{setCols, values}` is modeled as a pair. -/
def sqlForPartialUpdate {α : Type} (dataToUpdate : List (String × α))
    (jsToSql : List (String × String)) : Except ExpressErr (String × List α) :=
  let keys := dataToUpdate.map Prod.fst
  if keys.length = 0 then
    .error (.badRequest "No data")
  else
    .ok (String.intercalate ", " (updateCols jsToSql keys 0),
         dataToUpdate.map Prod.snd)

theorem updateCols_length (jsToSql : List (String × String)) :
    ∀ (keys : List String) (i : Nat), (updateCols jsToSql keys i).length = keys.length
  | [], _ => rfl
  | _ :: rest, i => by
      simp [updateCols, updateCols_length jsToSql rest (i + 1)]

theorem updateCols_get (jsToSql : List (String × String)) :
    ∀ (keys : List String) (i k : Nat),
      (updateCols jsToSql keys i).get? k =
        (keys.get? k).map
          (fun c => "\"" ++ resolveCol jsToSql c ++ "\"=$" ++ toString (i + k + 1))
  | [], _, _ => by simp [updateCols]
  | c :: rest, i, 0 => by simp [updateCols]
  | c :: rest, i, k + 1 => by
      have ih := updateCols_get jsToSql rest (i + 1) k
      simp only [updateCols, List.get?_cons_succ, ih]
      have : i + 1 + k = i + (k + 1) := by omega
      rw [this]

/-- C1: for every non-empty field map and every column mapping,
`sqlForPartialUpdate` succeeds with a values array exactly as long as the
field map, a fragment list of the same length, and for each index `k`
(0-based) the `k`-th fragment carries placeholder `$(k+1)` — so placeholders
run `$1..$n` contiguously and strictly increasing in the field map's
iteration order — and binds to the `k`-th element of values, which is the
`k`-th field's value. -/
theorem sqlForPartialUpdate_placeholders {α : Type} (dataToUpdate : List (String × α))
    (jsToSql : List (String × String)) (h : dataToUpdate ≠ []) :
    sqlForPartialUpdate dataToUpdate jsToSql =
      .ok (String.intercalate ", " (updateCols jsToSql (dataToUpdate.map Prod.fst) 0),
           dataToUpdate.map Prod.snd)
    ∧ (dataToUpdate.map Prod.snd).length = dataToUpdate.length
    ∧ (updateCols jsToSql (dataToUpdate.map Prod.fst) 0).length = dataToUpdate.length
    ∧ ∀ k entry, dataToUpdate.get? k = some entry →
        (updateCols jsToSql (dataToUpdate.map Prod.fst) 0).get? k =
          some ("\"" ++ resolveCol jsToSql entry.1 ++ "\"=$" ++ toString (k + 1))
        ∧ (dataToUpdate.map Prod.snd).get? k = some entry.2 := by
  have hlen : (dataToUpdate.map Prod.fst).length ≠ 0 := by
    simpa using fun hnil => h (List.eq_nil_of_length_eq_zero hnil)
  refine ⟨?_, by simp, ?_, ?_⟩
  · simp only [sqlForPartialUpdate]
    rw [if_neg hlen]
  · rw [updateCols_length, List.length_map]
  · intro k entry hk
    constructor
    · rw [updateCols_get, List.get?_map, hk]
      simp
    · rw [List.get?_map, hk]
      rfl

/-- Witness for C1 at the field map `{firstName: "Aliya", age: "32"}` with
mapping `{firstName: "first_name"}`. -/
theorem sqlForPartialUpdate_placeholders_witness :
    sqlForPartialUpdate [("firstName", "Aliya"), ("age", "32")] [("firstName", "first_name")] =
      .ok (String.intercalate ", "
            (updateCols [("firstName", "first_name")]
              ([("firstName", "Aliya"), ("age", "32")].map Prod.fst) 0),
           [("firstName", "Aliya"), ("age", "32")].map Prod.snd)
    ∧ ([("firstName", "Aliya"), ("age", "32")].map Prod.snd).length =
        [("firstName", "Aliya"), ("age", "32")].length
    ∧ (updateCols [("firstName", "first_name")]
        ([("firstName", "Aliya"), ("age", "32")].map Prod.fst) 0).length =
        [("firstName", "Aliya"), ("age", "32")].length
    ∧ ∀ k entry, [("firstName", "Aliya"), ("age", "32")].get? k = some entry →
        (updateCols [("firstName", "first_name")]
          ([("firstName", "Aliya"), ("age", "32")].map Prod.fst) 0).get? k =
          some ("\"" ++ resolveCol [("firstName", "first_name")] entry.1 ++ "\"=$" ++ toString (k + 1))
        ∧ ([("firstName", "Aliya"), ("age", "32")].map Prod.snd).get? k = some entry.2 :=
  sqlForPartialUpdate_placeholders [("firstName", "Aliya"), ("age", "32")]
    [("firstName", "first_name")] (List.cons_ne_nil _ _)

/-- C3: for every column mapping, `sqlForPartialUpdate` on an empty field map
fails with `BadRequestError "No data"`; in the embedding the error branch is
taken before any fragment of `updateCols` is built. -/
theorem sqlForPartialUpdate_empty (jsToSql : List (String × String)) :
    sqlForPartialUpdate ([] : List (String × String)) jsToSql =
      .error (.badRequest "No data") := rfl

/-- C7: an external field name absent from the column mapping resolves to
itself verbatim, and `sqlForPartialUpdate {age: 32} {}` yields the fragment
`"age"=$1` bound to value 32. -/
theorem resolveCol_fallback (jsToSql : List (String × String)) (colName : String)
    (h : jsToSql.lookup colName = none) :
    resolveCol jsToSql colName = colName
    ∧ sqlForPartialUpdate [("age", (32 : Int))] ([] : List (String × String)) =
        .ok ("\"age\"=$1", [32]) := by
  constructor
  · unfold resolveCol
    rw [h]
  · rfl

/-- Witness for C7 at the name `age` and the empty mapping. -/
theorem resolveCol_fallback_witness :
    resolveCol [] "age" = "age"
    ∧ sqlForPartialUpdate [("age", (32 : Int))] ([] : List (String × String)) =
        .ok ("\"age\"=$1", [32]) :=
  resolveCol_fallback [] "age" rfl

/-- The decoded token payload exposed as `res.locals.user`: subject username
and administrator flag. The anonymous identity is `none` at the use sites. -/
structure IdentityClaim where
  username : String
  isAdmin : Bool
deriving Repr, DecidableEq

/-- Modelled from the spec: the `ensureLoggedIn` middleware
(`middleware/auth.js`) is not under src/, only its callers are. Spec §4.4,
Authenticated class: "Allow iff Identity Claim is not anonymous; else
Deny"; anonymous is modeled as `none`. -/
def ensureLoggedIn : Option IdentityClaim → Except ExpressErr IdentityClaim
  | none => .error (.unauthorized "Unauthorized")
  | some currentUser => .ok currentUser

/-- The owner-or-admin check repeated in routes/users.js (GET, PATCH, DELETE
`/:username` at lines 108-115, 144-151, 227-234, and POST
`/:username/jobs/:id` at lines 193-200): after `ensureLoggedIn`,
`if (currentUser.username !== username && !currentUser.isAdmin) throw new
UnauthorizedError(msg)`, each route with its own message, then the handler
proceeds. -/
def selfOrAdminGate (msg : String) (identity : Option IdentityClaim)
    (username : String) : Except ExpressErr IdentityClaim :=
  match ensureLoggedIn identity with
  | .error e => .error e
  | .ok currentUser =>
      if currentUser.username != username && !currentUser.isAdmin then
        .error (.unauthorized msg)
      else
        .ok currentUser

/-- Guard of `GET /users/:username` (routes/users.js lines 99-123). -/
def userGetGuard : Option IdentityClaim → String → Except ExpressErr IdentityClaim :=
  selfOrAdminGate "You do not have permission to view this user"

/-- Guard of `PATCH /users/:username` (routes/users.js lines 135-171). -/
def userPatchGuard : Option IdentityClaim → String → Except ExpressErr IdentityClaim :=
  selfOrAdminGate "You do not have permission to update this user"

/-- Guard of `DELETE /users/:username` (routes/users.js lines 218-242). -/
def userDeleteGuard : Option IdentityClaim → String → Except ExpressErr IdentityClaim :=
  selfOrAdminGate "You do not have permission to delete this user"

/-- Guard of `POST /users/:username/jobs/:id` (routes/users.js lines
180-211). -/
def applyForJobGuard : Option IdentityClaim → String → Except ExpressErr IdentityClaim :=
  selfOrAdminGate "You do not have permission to apply for jobs for this user."

/-- Admin-only check of `POST /users` (routes/users.js lines 41-45):
`if (!res.locals.user.isAdmin) throw new UnauthorizedError(...)`. -/
def usersPostGuard (identity : Option IdentityClaim) : Except ExpressErr IdentityClaim :=
  match ensureLoggedIn identity with
  | .error e => .error e
  | .ok currentUser =>
      if !currentUser.isAdmin then
        .error (.unauthorized "Admin privileges required")
      else
        .ok currentUser

/-- Admin-only check of `GET /users` (routes/users.js lines 78-82). -/
def usersListGuard (identity : Option IdentityClaim) : Except ExpressErr IdentityClaim :=
  match ensureLoggedIn identity with
  | .error e => .error e
  | .ok currentUser =>
      if !currentUser.isAdmin then
        .error (.unauthorized "Admin privileges required")
      else
        .ok currentUser

/-- A guard result that lets the handler proceed. -/
def guardAllows (r : Except ExpressErr IdentityClaim) : Prop :=
  ∃ cu, r = .ok cu

/-- A guard result that denies with an `UnauthorizedError`. -/
def deniedUnauthorized (r : Except ExpressErr IdentityClaim) : Prop :=
  ∃ msg, r = .error (.unauthorized msg)

/-- The spec's Self-or-admin admission condition on an identity and a
resource-owner key. -/
def selfOrAdmin (identity : Option IdentityClaim) (username : String) : Prop :=
  ∃ cu, identity = some cu ∧ (cu.username = username ∨ cu.isAdmin = true)

theorem selfOrAdminGate_allows_iff (msg : String) (identity : Option IdentityClaim)
    (username : String) :
    guardAllows (selfOrAdminGate msg identity username) ↔ selfOrAdmin identity username := by
  rcases identity with _ | cu
  · simp [selfOrAdminGate, ensureLoggedIn, guardAllows, selfOrAdmin]
  · by_cases h1 : cu.username = username <;> by_cases h2 : cu.isAdmin <;>
      simp [selfOrAdminGate, ensureLoggedIn, guardAllows, selfOrAdmin, h1, h2]

theorem selfOrAdminGate_denied_iff (msg : String) (identity : Option IdentityClaim)
    (username : String) :
    deniedUnauthorized (selfOrAdminGate msg identity username) ↔
      ¬ selfOrAdmin identity username := by
  rcases identity with _ | cu
  · simp [selfOrAdminGate, ensureLoggedIn, deniedUnauthorized, selfOrAdmin]
  · by_cases h1 : cu.username = username <;> by_cases h2 : cu.isAdmin <;>
      simp [selfOrAdminGate, ensureLoggedIn, deniedUnauthorized, selfOrAdmin, h1, h2]

/-- C2: under each Self-or-admin route of routes/users.js (user get, user
patch, user delete, apply-for-job) the guard allows exactly when the
authenticated identity's username equals the resource-owner key or the
identity is an administrator; every other identity — anonymous included — is
denied with an `UnauthorizedError`; and a non-administrator owner, while
allowed under Self-or-admin, is denied by the Admin-only checks of
`POST /users` and `GET /users`. -/
theorem users_self_or_admin_spec (identity : Option IdentityClaim) (username : String) :
    (guardAllows (userGetGuard identity username) ↔ selfOrAdmin identity username)
    ∧ (guardAllows (userPatchGuard identity username) ↔ selfOrAdmin identity username)
    ∧ (guardAllows (userDeleteGuard identity username) ↔ selfOrAdmin identity username)
    ∧ (guardAllows (applyForJobGuard identity username) ↔ selfOrAdmin identity username)
    ∧ (deniedUnauthorized (userGetGuard identity username) ↔ ¬ selfOrAdmin identity username)
    ∧ (deniedUnauthorized (userPatchGuard identity username) ↔ ¬ selfOrAdmin identity username)
    ∧ (deniedUnauthorized (userDeleteGuard identity username) ↔ ¬ selfOrAdmin identity username)
    ∧ (deniedUnauthorized (applyForJobGuard identity username) ↔ ¬ selfOrAdmin identity username)
    ∧ deniedUnauthorized (userGetGuard none username)
    ∧ guardAllows (userGetGuard (some ⟨username, false⟩) username)
    ∧ deniedUnauthorized (usersPostGuard (some ⟨username, false⟩))
    ∧ deniedUnauthorized (usersListGuard (some ⟨username, false⟩)) := by
  refine ⟨selfOrAdminGate_allows_iff _ _ _, selfOrAdminGate_allows_iff _ _ _,
    selfOrAdminGate_allows_iff _ _ _, selfOrAdminGate_allows_iff _ _ _,
    selfOrAdminGate_denied_iff _ _ _, selfOrAdminGate_denied_iff _ _ _,
    selfOrAdminGate_denied_iff _ _ _, selfOrAdminGate_denied_iff _ _ _,
    ?_, ?_, ?_, ?_⟩
  · simp [userGetGuard, selfOrAdminGate, ensureLoggedIn, deniedUnauthorized]
  · simp [userGetGuard, selfOrAdminGate, ensureLoggedIn, guardAllows]
  · simp [usersPostGuard, ensureLoggedIn, deniedUnauthorized]
  · simp [usersListGuard, ensureLoggedIn, deniedUnauthorized]

/-- An inbound request as Express hands it to a handler: `req.params` holds
the route parameters, `req.query` the query-string pairs. The companies list
route is registered as `GET /`, which declares no route parameters, so
Express passes it an empty `params` on every request. -/
structure HttpRequest where
  params : List (String × String)
  query : List (String × String)
deriving Repr

/-- Digit-list accumulator for `jsToNumber`. -/
def parseDigits : List Char → Nat → Option Nat
  | [], acc => some acc
  | c :: cs, acc =>
      if c.isDigit then parseDigits cs (acc * 10 + (c.toNat - 48)) else none

/-- JavaScript unary plus on a string restricted to integer literals: the
empty string coerces to 0, an optional leading minus sign is honoured, any
other non-digit character yields NaN (`none`). -/
def jsToNumber (s : String) : Option Int :=
  match s.data with
  | [] => some 0
  | '-' :: rest =>
      if rest = [] then none
      else (parseDigits rest 0).map (fun n => -(n : Int))
  | l => (parseDigits l 0).map (fun n => (n : Int))

/-- The comparison `+minEmployees > +maxEmployees` (routes/companies.js line
84) on two JavaScript strings: unary plus parses each string as a number (NaN
when unparsable) and comparisons against NaN are false, so the test holds
only when both parse and the first exceeds the second. -/
def jsNumGt (a b : String) : Bool :=
  match jsToNumber a, jsToNumber b with
  | some x, some y => x > y
  | _, _ => false

/-- The `GET /companies` handler (routes/companies.js lines 75-100) up to the
`Company.findAll` call: the code destructures `nameLike`, `minEmployees`,
`maxEmployees` from `req.params` (the route-parameter object), throws
`BadRequestError` when both numeric bounds are defined with min greater than
max, and otherwise forwards the three filters; the returned triple is the
argument object handed to `Company.findAll`. -/
def companiesGetHandler (req : HttpRequest) :
    Except ExpressErr (Option String × Option String × Option String) :=
  let nameLike := req.params.lookup "nameLike"
  let minEmployees := req.params.lookup "minEmployees"
  let maxEmployees := req.params.lookup "maxEmployees"
  match minEmployees, maxEmployees with
  | some mn, some mx =>
      if jsNumGt mn mx then
        .error (.badRequest "minEmployees cannot be greater than maxEmployees")
      else
        .ok (nameLike, minEmployees, maxEmployees)
  | _, _ => .ok (nameLike, minEmployees, maxEmployees)

/-- C4 (code-bug evidence): a companies list request supplying
`minEmployees=100`, `maxEmployees=5` through the query string — route
parameters are empty for `GET /` — is not rejected: the handler reads the
filters from `req.params`, sees both as undefined, skips the validation and
forwards no filters at all to `Company.findAll`; indeed on any query string
the handler succeeds with all three filters dropped, even though the
comparison itself would flag 100 > 5 had the values been read. The claim
(and the route's own doc comment advertising these filters) requires such a
request to fail with `BadRequestError`. -/
theorem companiesGetHandler_min_gt_max_not_rejected :
    companiesGetHandler
        { params := [], query := [("minEmployees", "100"), ("maxEmployees", "5")] } =
      .ok (none, none, none)
    ∧ (∀ q : List (String × String),
        companiesGetHandler { params := [], query := q } = .ok (none, none, none))
    ∧ jsNumGt "100" "5" = true :=
  ⟨rfl, fun _ => rfl, by decide⟩

/-- A row of the `users` relation. -/
structure UserRow where
  username : String
  password : String
  firstName : String
  lastName : String
  email : String
  isAdmin : Bool
deriving Repr, DecidableEq

/-- The selected user columns as models/user.js returns them (the password
column is never selected, or is deleted before the return). -/
structure UserPub where
  username : String
  firstName : String
  lastName : String
  email : String
  isAdmin : Bool
deriving Repr, DecidableEq

def UserRow.toPub (r : UserRow) : UserPub :=
  ⟨r.username, r.firstName, r.lastName, r.email, r.isAdmin⟩

/-- The backing store seen by models/user.js: the `users` rows, the ids of
the `jobs` rows, and the `applications` rows — whose schema declares the
composite primary key (username, job_id). -/
structure DbState where
  users : List UserRow
  jobs : List Nat
  applications : List (String × Nat)
deriving Repr, DecidableEq

/-- A failure raised by `db.query` itself, below the application's
`expressError` taxonomy: the unique-key violation a primary-key constraint
raises on a duplicate INSERT. -/
inductive DbErr where
  | uniqueViolation (table : String)
deriving Repr, DecidableEq

/-- A failure escaping a model method: an application-level `ExpressErr`
thrown by the JavaScript code, or a raw storage error propagating unhandled
out of `db.query`. -/
inductive AppFailure where
  | express (e : ExpressErr)
  | storage (e : DbErr)
deriving Repr, DecidableEq

/-- Modelled from the spec: the generic error handler that turns an escaped
failure into a response status lives in app.js / expressError.js, which are
not under src/. Spec §7: InvalidInput and Conflict are client faults,
Unauthorized an access fault, NotFound distinct from it, and "all other
storage-layer failures ... propagate unmodified to a generic server-fault
response"; `ExpressErr` values carry their own statuses (400/401/404) while
a raw storage error has none and falls to the generic 500. -/
def responseStatus : AppFailure → Nat
  | .express (.badRequest _) => 400
  | .express (.unauthorized _) => 401
  | .express (.notFound _) => 404
  | .storage _ => 500

/-- Statuses in the 4xx range are client faults; 500 is the generic server fault. -/
def isClientFaultStatus (n : Nat) : Bool := 400 ≤ n && n < 500

/-- Result shape of `User.get`: the selected user columns spread together
with the `josb` property (the key is misspelled in the source, models/user.js
line 294). -/
structure UserGetResult where
  username : String
  firstName : String
  lastName : String
  email : String
  isAdmin : Bool
  josb : Option (List Nat)
deriving Repr, DecidableEq

/-- The method `User.getUserApplications` (models/user.js lines 397-407): runs
`SELECT job_id FROM applications WHERE username = $1`, then evaluates
`result.rows.map((r) => r.job_id)` without a `return`, so the JavaScript
function resolves to `undefined`, modeled as `none`. -/
def User.getUserApplications (db : DbState) (username : String) : Option (List Nat) :=
  let _mapped := (db.applications.filter (fun a => a.1 == username)).map Prod.snd
  none

/-- The method `User.get` (models/user.js lines 275-295): select the user row — the
first match, `result.rows[0]` — throw `NotFoundError` when absent, fetch the
application ids, and return `{ ...user, josb: jobIds }`. -/
def User.get (db : DbState) (username : String) : Except ExpressErr UserGetResult :=
  match db.users.find? (fun u => u.username == username) with
  | none => .error (.notFound ("No user: " ++ username))
  | some user =>
      let jobIds := User.getUserApplications db username
      .ok { username := user.username, firstName := user.firstName,
            lastName := user.lastName, email := user.email,
            isAdmin := user.isAdmin, josb := jobIds }

/-- The `jsToSql` mapping passed by `User.update` (models/user.js lines
322-326). -/
def userUpdateMapping : List (String × String) :=
  [("firstName", "first_name"), ("lastName", "last_name"), ("isAdmin", "is_admin")]

/-- The password pre-hashing step of `User.update` (models/user.js lines
315-320): `if (data.password) data.password = await bcrypt.hash(...)`. A
JavaScript string is truthy exactly when non-empty, and assignment to an
existing key keeps its position and the entry count. `hash` abstracts
`bcrypt.hash` with the configured work factor. -/
def hashPasswordField (hash : String → String) (data : List (String × String)) :
    List (String × String) :=
  match data.lookup "password" with
  | some p =>
      if p ≠ "" then
        data.map (fun e => if e.1 = "password" then (e.1, hash p) else e)
      else data
  | none => data

/-- The `querySql` template of `User.update` (models/user.js lines 329-336)
with the WHERE placeholder index `usernameVarIdx` made explicit. -/
def userUpdateQuerySql (setCols : String) (idx : Nat) : String :=
  "UPDATE users SET " ++ setCols ++ " WHERE username = $" ++ toString idx
    ++ " RETURNING username, first_name AS \"firstName\", last_name AS \"lastName\", email, is_admin AS \"isAdmin\""

/-- The statement-construction half of `User.update` (models/user.js lines
314-340): hash the password field, run `sqlForPartialUpdate` against the
mapping, set `usernameVarIdx = "$" + (values.length + 1)`, interpolate
`querySql`, and pass `[...values, username]` as the parameter array of
`db.query`. Returns that (querySql, parameters) pair. -/
def userUpdateCall (hash : String → String) (username : String)
    (data : List (String × String)) : Except ExpressErr (String × List String) :=
  let data2 := hashPasswordField hash data
  match sqlForPartialUpdate data2 userUpdateMapping with
  | .error e => .error e
  | .ok (setCols, values) =>
      .ok (userUpdateQuerySql setCols (values.length + 1), values ++ [username])

/-- Semantic effect of one SET assignment of the generated users UPDATE; the
column names are the storage names produced by `resolveCol` under
`userUpdateMapping`. -/
def applyUserField (r : UserRow) (col : String) (v : String) : UserRow :=
  if col = "first_name" then { r with firstName := v }
  else if col = "last_name" then { r with lastName := v }
  else if col = "is_admin" then { r with isAdmin := (v = "true") }
  else if col = "email" then { r with email := v }
  else if col = "password" then { r with password := v }
  else r

def applyUserFields (r : UserRow) : List (String × String) → UserRow
  | [] => r
  | (c, v) :: rest => applyUserFields (applyUserField r c v) rest

/-- The method `User.update` (models/user.js lines 314-348): build the statement via
`userUpdateCall` and execute it — the row whose username matches the final
parameter is updated and returned; zero matching rows leave `result.rows[0]`
undefined and the code throws `NotFoundError`. -/
def User.update (hash : String → String) (db : DbState) (username : String)
    (data : List (String × String)) : Except ExpressErr (DbState × UserPub) :=
  match userUpdateCall hash username data with
  | .error e => .error e
  | .ok _call =>
      match db.users.find? (fun u => u.username == username) with
      | none => .error (.notFound ("No user: " ++ username))
      | some user =>
          let assigns := (hashPasswordField hash data).map
            (fun e => (resolveCol userUpdateMapping e.1, e.2))
          let updated := applyUserFields user assigns
          let users2 := db.users.map
            (fun u => if u.username == username then applyUserFields u assigns else u)
          .ok ({ db with users := users2 }, updated.toPub)

/-- The method `User.remove` (models/user.js lines 411-423): `DELETE FROM users WHERE
username = $1 RETURNING username`; when no row came back, throw
`NotFoundError`. -/
def User.remove (db : DbState) (username : String) : Except ExpressErr DbState :=
  match db.users.find? (fun u => u.username == username) with
  | none => .error (.notFound ("No user: " ++ username))
  | some _ =>
      .ok { db with users := db.users.filter (fun u => !(u.username == username)) }

/-- The method `User.applyForJob` (models/user.js lines 359-390): check the user
exists, check the job exists — `NotFoundError` otherwise — then
`INSERT INTO applications (username, job_id) VALUES ($1, $2)`. The
applications relation's composite primary key (username, job_id) makes the
storage engine raise a unique-key violation on a duplicate pair; the method
has no handler for it, so it propagates out raw. -/
def User.applyForJob (db : DbState) (username : String) (jobId : Nat) :
    Except AppFailure (DbState × Nat) :=
  if (db.users.find? (fun u => u.username == username)).isNone then
    .error (.express (.notFound ("No user: " ++ username)))
  else if (db.jobs.find? (fun j => j == jobId)).isNone then
    .error (.express (.notFound ("No job: " ++ toString jobId)))
  else if (username, jobId) ∈ db.applications then
    .error (.storage (.uniqueViolation "applications"))
  else
    .ok ({ db with applications := db.applications ++ [(username, jobId)] }, jobId)

/-- The seeded test user u1 of _testCommon. -/
def demoUser : UserRow :=
  ⟨"u1", "pw1", "U1F", "U1L", "user1@user.com", false⟩

/-- A store holding user u1 and job 1 with no applications yet. -/
def demoDb : DbState := ⟨[demoUser], [1], []⟩

/-- The store `demoDb` after u1 applied for job 1. -/
def demoDbApplied : DbState := ⟨[demoUser], [1], [("u1", 1)]⟩

theorem hashPasswordField_length (hash : String → String) (data : List (String × String)) :
    (hashPasswordField hash data).length = data.length := by
  cases hl : data.lookup "password" with
  | none => simp [hashPasswordField, hl]
  | some p =>
      by_cases hp : p ≠ "" <;> simp [hashPasswordField, hl, hp]

theorem hashPasswordField_ne_nil (hash : String → String) (data : List (String × String))
    (h : data ≠ []) : hashPasswordField hash data ≠ [] := by
  intro hn
  apply h
  have := hashPasswordField_length hash data
  rw [hn] at this
  exact List.eq_nil_of_length_eq_zero this.symm

theorem userUpdateCall_spec (hash : String → String) (username : String)
    (data : List (String × String)) (h : data ≠ []) :
    userUpdateCall hash username data =
      .ok (userUpdateQuerySql
            (String.intercalate ", "
              (updateCols userUpdateMapping ((hashPasswordField hash data).map Prod.fst) 0))
            (data.length + 1),
          (hashPasswordField hash data).map Prod.snd ++ [username]) := by
  have hne := hashPasswordField_ne_nil hash data h
  have hlen : ((hashPasswordField hash data).map Prod.fst).length ≠ 0 := by
    simpa using fun hnil => hne (List.eq_nil_of_length_eq_zero hnil)
  unfold userUpdateCall sqlForPartialUpdate
  simp only [if_neg hlen]
  simp [hashPasswordField_length]

/-- C9: for every non-empty update map of n fields, `User.update` builds its
statement so that the target username is bound to placeholder $(n+1) — the
index right after the last assignment placeholder — and the parameter array
handed to the store is exactly the n assignment values in positions 1..n
followed by the username as the final element. -/
theorem userUpdate_binds_username_after_values (hash : String → String)
    (username : String) (data : List (String × String)) (h : data ≠ []) :
    ∃ setCols values,
      sqlForPartialUpdate (hashPasswordField hash data) userUpdateMapping = .ok (setCols, values)
      ∧ values.length = data.length
      ∧ userUpdateCall hash username data =
          .ok (userUpdateQuerySql setCols (data.length + 1), values ++ [username])
      ∧ (values ++ [username]).length = data.length + 1
      ∧ (∀ k, k < data.length → (values ++ [username]).get? k = values.get? k)
      ∧ (values ++ [username]).get? data.length = some username := by
  have hne := hashPasswordField_ne_nil hash data h
  have hlen : ((hashPasswordField hash data).map Prod.fst).length ≠ 0 := by
    simpa using fun hnil => hne (List.eq_nil_of_length_eq_zero hnil)
  have hvlen : ((hashPasswordField hash data).map Prod.snd).length = data.length := by
    simp [hashPasswordField_length]
  refine ⟨String.intercalate ", "
            (updateCols userUpdateMapping ((hashPasswordField hash data).map Prod.fst) 0),
          (hashPasswordField hash data).map Prod.snd, ?_, hvlen, ?_, ?_, ?_, ?_⟩
  · unfold sqlForPartialUpdate
    rw [if_neg hlen]
  · exact userUpdateCall_spec hash username data h
  · simp [hvlen]
  · intro k hk
    rw [List.get?_append]
    rw [hvlen]
    exact hk
  · rw [List.get?_append_right (by rw [hvlen])]
    rw [hvlen]
    simp

/-- Witness for C9 at the one-field update `{firstName: "New"}` of user u1
(hash abstracted as the identity). -/
theorem userUpdate_binds_username_after_values_witness :
    ∃ setCols values,
      sqlForPartialUpdate (hashPasswordField id [("firstName", "New")]) userUpdateMapping =
        .ok (setCols, values)
      ∧ values.length = [("firstName", "New")].length
      ∧ userUpdateCall id "u1" [("firstName", "New")] =
          .ok (userUpdateQuerySql setCols ([("firstName", "New")].length + 1), values ++ ["u1"])
      ∧ (values ++ ["u1"]).length = [("firstName", "New")].length + 1
      ∧ (∀ k, k < [("firstName", "New")].length → (values ++ ["u1"]).get? k = values.get? k)
      ∧ (values ++ ["u1"]).get? [("firstName", "New")].length = some "u1" :=
  userUpdate_binds_username_after_values id "u1" [("firstName", "New")]
    (List.cons_ne_nil _ _)

/-- C6: when the key matches no stored user — zero rows returned or affected
— `User.get`, `User.update` (on a non-empty field map) and `User.remove` all
fail with `NotFoundError`, which is never equal to an `UnauthorizedError`. -/
theorem user_absent_key_not_found (hash : String → String) (db : DbState)
    (username : String) (data : List (String × String))
    (habs : db.users.find? (fun u => u.username == username) = none)
    (hdata : data ≠ []) :
    User.get db username = .error (.notFound ("No user: " ++ username))
    ∧ User.remove db username = .error (.notFound ("No user: " ++ username))
    ∧ User.update hash db username data = .error (.notFound ("No user: " ++ username))
    ∧ (∀ m1 m2 : String, ExpressErr.notFound m1 ≠ ExpressErr.unauthorized m2) := by
  refine ⟨?_, ?_, ?_, ?_⟩
  · simp [User.get, habs]
  · simp [User.remove, habs]
  · rw [User.update, userUpdateCall_spec hash username data hdata]
    simp [habs]
  · intro m1 m2 hcon
    cases hcon

/-- Witness for C6 at the username `nope` against the seeded store. -/
theorem user_absent_key_not_found_witness :
    User.get demoDb "nope" = .error (.notFound ("No user: " ++ "nope"))
    ∧ User.remove demoDb "nope" = .error (.notFound ("No user: " ++ "nope"))
    ∧ User.update id demoDb "nope" [("firstName", "New")] =
        .error (.notFound ("No user: " ++ "nope"))
    ∧ (∀ m1 m2 : String, ExpressErr.notFound m1 ≠ ExpressErr.unauthorized m2) :=
  user_absent_key_not_found id demoDb "nope" [("firstName", "New")] (by decide)
    (List.cons_ne_nil _ _)

/-- C5 (counterexample): with user u1 and job 1 seeded, the first application
succeeds and the second application for the same (u1, job 1) pair fails with
the storage layer's raw unique-key violation, whose response status is the
generic 500 server fault — not a 4xx client-fault Conflict as the claim
states. -/
theorem applyForJob_duplicate_counterexample :
    User.applyForJob demoDb "u1" 1 = .ok (demoDbApplied, 1)
    ∧ User.applyForJob demoDbApplied "u1" 1 =
        .error (.storage (.uniqueViolation "applications"))
    ∧ responseStatus (.storage (.uniqueViolation "applications")) = 500
    ∧ isClientFaultStatus (responseStatus (.storage (.uniqueViolation "applications"))) = false := by
  refine ⟨?_, ?_, rfl, rfl⟩ <;> rfl

/-- C5 (amended): applying a second time for the same (subject, position)
pair — user and job both existing, the pair already in `applications` —
fails with the storage layer's unique-key violation on the composite primary
key, which surfaces as the generic 500 server-fault response, not as a
client-fault Conflict. -/
theorem applyForJob_duplicate_storage_fault (db : DbState) (username : String)
    (jobId : Nat)
    (hu : (db.users.find? (fun u => u.username == username)).isSome = true)
    (hj : (db.jobs.find? (fun j => j == jobId)).isSome = true)
    (ha : (username, jobId) ∈ db.applications) :
    User.applyForJob db username jobId = .error (.storage (.uniqueViolation "applications"))
    ∧ responseStatus (.storage (.uniqueViolation "applications")) = 500
    ∧ isClientFaultStatus (responseStatus (.storage (.uniqueViolation "applications"))) = false := by
  obtain ⟨u, hu2⟩ := Option.isSome_iff_exists.mp hu
  obtain ⟨j, hj2⟩ := Option.isSome_iff_exists.mp hj
  refine ⟨?_, rfl, rfl⟩
  simp [User.applyForJob, hu2, hj2, ha]

/-- Witness for the amended C5 at the duplicate (u1, job 1) pair. -/
theorem applyForJob_duplicate_storage_fault_witness :
    User.applyForJob demoDbApplied "u1" 1 =
        .error (.storage (.uniqueViolation "applications"))
    ∧ responseStatus (.storage (.uniqueViolation "applications")) = 500
    ∧ isClientFaultStatus (responseStatus (.storage (.uniqueViolation "applications"))) = false :=
  applyForJob_duplicate_storage_fault demoDbApplied "u1" 1 (by decide) (by decide)
    (by decide)

/-- C10: `User.getUserApplications` never returns its row-mapping result —
it is `undefined` for every store and username — so `User.get` on an
existing user yields a record whose applied-jobs list sits under the
misspelled key `josb` with value `undefined`: the list of job ids a user has
applied for is never delivered through `User.get`. -/
theorem user_get_josb_undefined (db : DbState) (username : String) (user : UserRow)
    (hfind : db.users.find? (fun u => u.username == username) = some user) :
    User.getUserApplications db username = none
    ∧ User.get db username =
        .ok { username := user.username, firstName := user.firstName,
              lastName := user.lastName, email := user.email,
              isAdmin := user.isAdmin, josb := none } := by
  refine ⟨rfl, ?_⟩
  simp [User.get, hfind, User.getUserApplications]

/-- Witness for C10 at user u1 of the seeded store. -/
theorem user_get_josb_undefined_witness :
    User.getUserApplications demoDb "u1" = none
    ∧ User.get demoDb "u1" =
        .ok { username := demoUser.username, firstName := demoUser.firstName,
              lastName := demoUser.lastName, email := demoUser.email,
              isAdmin := demoUser.isAdmin, josb := none } :=
  user_get_josb_undefined demoDb "u1" demoUser (by decide)

/-- A row of the `jobs` relation as the jobs list query reads it. -/
structure JobRow where
  title : String
  salary : Int
  equity : Rat
deriving DecidableEq

/-- Modelled from the spec: the job search Filter Spec (spec §3, §4.3). The
jobs model and jobs routes are not under src/ — only their tests are — so
the job filters are modeled from the spec: an optional case-insensitive
substring title filter, an optional inclusive minimum salary, and the
boolean hasEquity flag (false or absent imposes no restriction; true
restricts to rows where equity is positive). -/
structure JobFilterSpec where
  title : Option String
  minSalary : Option Int
  hasEquity : Option Bool
deriving Repr, DecidableEq

/-- One predicate fragment of the generated jobs filter clause, carrying the
placeholder index it binds; the equity predicate embeds no parameter. -/
inductive JobPred where
  | titleLike (idx : Nat)
  | salaryAtLeast (idx : Nat)
  | equityPositive
deriving Repr, DecidableEq

/-- A value bound to a placeholder of the jobs filter clause. -/
inductive SqlVal where
  | str (s : String)
  | int (n : Int)
deriving Repr, DecidableEq

/-- Modelled from the spec: `buildFilter` for job list queries (spec §4.3):
each present filter, in the fixed order text filter, minimum, boolean flag,
appends one predicate using the next placeholder index and its value; absent
filters contribute nothing, a false hasEquity is treated as absent, and a
true hasEquity appends the positive-equity predicate (no placeholder). -/
def buildJobFilter (f : JobFilterSpec) : List JobPred × List SqlVal :=
  let (ps1, vs1) :=
    match f.title with
    | some t => ([JobPred.titleLike 1], [SqlVal.str ("%" ++ t ++ "%")])
    | none => ([], [])
  let (ps2, vs2) :=
    match f.minSalary with
    | some m => (ps1 ++ [JobPred.salaryAtLeast (vs1.length + 1)], vs1 ++ [SqlVal.int m])
    | none => (ps1, vs1)
  match f.hasEquity with
  | some true => (ps2 ++ [JobPred.equityPositive], vs2)
  | _ => (ps2, vs2)

/-- Rendering of one predicate fragment into SQL text. -/
def renderJobPred : JobPred → String
  | .titleLike idx => "title ILIKE $" ++ toString idx
  | .salaryAtLeast idx => "salary >= $" ++ toString idx
  | .equityPositive => "equity > 0"

/-- The conjunctive filter clause: fragments joined with " AND ". -/
def jobFilterClause (f : JobFilterSpec) : String :=
  String.intercalate " AND " ((buildJobFilter f).1.map renderJobPred)

/-- Bool-valued containment of one character list in another. -/
def listContains (needle : List Char) : List Char → Bool
  | [] => needle.isEmpty
  | c :: t => needle.isPrefixOf (c :: t) || listContains needle t

/-- Case-insensitive unanchored containment of `pat` in `stored`. -/
def containsCI (stored pat : String) : Bool :=
  listContains (pat.data.map Char.toLower) (stored.data.map Char.toLower)

/-- Modelled from the spec: `ILIKE` evaluation restricted to the pattern
shape the builder emits, `%text%` — strip the two wildcard markers and test
case-insensitive containment. -/
def ilikeMatch (stored pat : String) : Bool :=
  containsCI stored (String.mk ((pat.data.drop 1).dropLast))

/-- Evaluation of one predicate fragment against a row, binding placeholder
`$i` to element `i` of the value sequence (1-indexed). -/
def evalJobPred (vals : List SqlVal) (r : JobRow) : JobPred → Bool
  | .titleLike idx =>
      match vals.get? (idx - 1) with
      | some (.str pat) => ilikeMatch r.title pat
      | _ => false
  | .salaryAtLeast idx =>
      match vals.get? (idx - 1) with
      | some (.int m) => decide (r.salary ≥ m)
      | _ => false
  | .equityPositive => decide (r.equity > 0)

/-- A row satisfies the built filter when every emitted predicate holds. -/
def rowMatchesFilter (f : JobFilterSpec) (r : JobRow) : Bool :=
  (buildJobFilter f).1.all (evalJobPred (buildJobFilter f).2 r)

/-- The rows a list query returns under a filter spec. -/
def jobsMatching (f : JobFilterSpec) (jobs : List JobRow) : List JobRow :=
  jobs.filter (rowMatchesFilter f)

theorem rowMatchesFilter_hasEquity_true (f : JobFilterSpec) (r : JobRow) :
    rowMatchesFilter { f with hasEquity := some true } r =
      (rowMatchesFilter { f with hasEquity := none } r && decide (r.equity > 0)) := by
  cases hf : f.title <;> cases hm : f.minSalary <;>
    simp [rowMatchesFilter, buildJobFilter, evalJobPred, hf, hm, Bool.and_assoc]

/-- C8: a hasEquity filter of value false contributes no predicate and no
placeholder — the built filter coincides with the one where the flag is
absent, so a list query with hasEquity=false returns exactly the rows of a
query without the flag; only hasEquity=true appends the equity predicate,
restricting the result to rows with positive equity. -/
theorem hasEquity_false_is_absent (f : JobFilterSpec) (jobs : List JobRow) :
    buildJobFilter { f with hasEquity := some false } =
      buildJobFilter { f with hasEquity := none }
    ∧ jobsMatching { f with hasEquity := some false } jobs =
        jobsMatching { f with hasEquity := none } jobs
    ∧ (buildJobFilter { f with hasEquity := some true }).1 =
        (buildJobFilter { f with hasEquity := none }).1 ++ [JobPred.equityPositive]
    ∧ (buildJobFilter { f with hasEquity := some true }).2 =
        (buildJobFilter { f with hasEquity := none }).2
    ∧ jobsMatching { f with hasEquity := some true } jobs =
        (jobsMatching { f with hasEquity := none } jobs).filter
          (fun r => decide (r.equity > 0)) := by
  refine ⟨rfl, rfl, ?_, ?_, ?_⟩
  · cases hf : f.title <;> cases hm : f.minSalary <;> simp [buildJobFilter, hf, hm]
  · cases hf : f.title <;> cases hm : f.minSalary <;> simp [buildJobFilter, hf, hm]
  · simp only [jobsMatching, List.filter_filter]
    refine List.filter_congr ?_
    intro r _
    rw [rowMatchesFilter_hasEquity_true]
    exact Bool.and_comm _ _
